import Mathlib

/-!
Verification development for the `ETCI2021` flood-detection dataset class
(`torchgeo/datasets/etci2021.py`).

The Python class is shallowly embedded below.  File-system access is
modelled by an explicit `FS` record (directory listings as the `glob`
calls observe them, plus an existence test), and image decoding by a
`Decoder` record (an RGB decode yielding a height-by-width grid of
colour triples, and a grayscale decode yielding a grid of integer pixel
values).  Python's `str.replace` (which substitutes every non-overlapping
occurrence, scanning left to right) is embedded as `pyReplace`;
`sorted` on lists of strings is embedded as `pySorted`, an insertion
sort by code-point lexicographic order; Python list indexing (with its
negative-index semantics) is embedded as `pyIndex`.  Fallible steps
return `Except`.
-/

namespace ETCI2021

/-- Code-point lexicographic comparison of character lists, the order
Python's `sorted` uses on strings. -/
def lexLe : List Char → List Char → Bool
  | [], _ => true
  | _ :: _, [] => false
  | a :: as, b :: bs =>
    if a < b then true
    else if b < a then false
    else lexLe as bs

/-- Lexicographic order on strings (as a proposition). -/
abbrev strLe (a b : String) : Prop := lexLe a.data b.data = true

/-- Python's `sorted` on a list of strings. -/
def pySorted (l : List String) : List String := List.insertionSort strLe l

/-- One pass of Python's `str.replace`: substitute every non-overlapping
occurrence of `pat`, scanning left to right.  The fuel argument is the
length of the scanned list, which bounds the recursion depth. -/
def pyReplaceAux (pat repl : List Char) : Nat → List Char → List Char
  | _, [] => []
  | 0, s => s
  | fuel + 1, c :: cs =>
    if pat ≠ [] ∧ pat.isPrefixOf (c :: cs) then
      repl ++ pyReplaceAux pat repl fuel (List.drop pat.length (c :: cs))
    else
      c :: pyReplaceAux pat repl fuel cs

/-- Python's `s.replace(pat, repl)`. -/
def pyReplace (s pat repl : String) : String :=
  ⟨pyReplaceAux pat.data repl.data s.data.length s.data⟩

/-- Python's `os.path.join` for the relative components used here. -/
def joinPath (a b : String) : String := a ++ "/" ++ b

/-- Python list indexing `l[i]` for an `int` index: negative indices
count from the end; out-of-range indices yield `none` (an `IndexError`). -/
def pyIndex {α : Type} (l : List α) (i : Int) : Option α :=
  let j : Int := if i < 0 then i + l.length else i
  if h : 0 ≤ j ∧ j < l.length then some (l.get ⟨j.toNat, by omega⟩) else none

/-- One entry of the class-level `metadata` table. -/
structure SplitMeta where
  filename : String
  md5 : String
  directory : String
  url : String
deriving DecidableEq

/-- The class-level `metadata` dictionary, as a partial map on the split
name; `none` models a `KeyError` / failed membership test. -/
def metadata : String → Option SplitMeta
  | "train" => some ⟨"train.zip", "1e95792fe0f6e3c9000abdeab2a8ab0f", "train",
      "https://drive.google.com/file/d/14HqNW5uWLS92n7KrxKgDwUTsSEST6LCr"⟩
  | "val" => some ⟨"val_with_ref_labels.zip", "fd18cecb318efc69f8319f90c3771bdf", "test",
      "https://drive.google.com/file/d/19sriKPHCZLfJn_Jmk3Z_0b3VaCBVRVyn"⟩
  | "test" => some ⟨"test_without_ref_labels.zip", "da9fa69e1498bd49d5c766338c6dac3d",
      "test_internal",
      "https://drive.google.com/file/d/1rpMVluASnSHBfm2FhpPDio0GyCPOqg7E"⟩
  | _ => none

/-- The `metadata` entry for the train split. -/
def trainMeta : SplitMeta :=
  ⟨"train.zip", "1e95792fe0f6e3c9000abdeab2a8ab0f", "train",
    "https://drive.google.com/file/d/14HqNW5uWLS92n7KrxKgDwUTsSEST6LCr"⟩

/-- The file system as the class observes it: `listDir p` is the result
of `glob(p + "/*")`, `listPng p` the result of `glob(p + "/*.png")`
(both in unspecified on-disk order), and `pathExists` is
`os.path.exists`. -/
structure FS where
  listDir : String → List String
  listPng : String → List String
  pathExists : String → Bool

/-- One group of related paths, the unit `_load_files` appends per
discovered vv file.  `floodMask` is `none` exactly when the dict has no
`flood_mask` key (the test split). -/
structure PathGroup where
  vv : String
  vh : String
  waterMask : String
  floodMask : Option String
deriving DecidableEq

/-- Body of the per-folder loop of `_load_files`. -/
def loadFolder (fs : FS) (split folder : String) : List PathGroup :=
  let vvs := pySorted (fs.listPng (joinPath folder "vv"))
  let vhs := vvs.map (fun vv => pyReplace vv "vv" "vh")
  let waterMasks := vvs.map
    (fun vv => pyReplace (pyReplace vv "_vv.png" ".png") "vv" "water_body_label")
  if split ≠ "test" then
    let floodMasks := vvs.map
      (fun vv => pyReplace (pyReplace vv "_vv.png" ".png") "vv" "flood_label")
    (vvs.zip (vhs.zip (floodMasks.zip waterMasks))).map
      (fun x => ⟨x.1, x.2.1, x.2.2.2, some x.2.2.1⟩)
  else
    (vvs.zip (vhs.zip waterMasks)).map (fun x => ⟨x.1, x.2.1, x.2.2, none⟩)

/-- `_load_files`: enumerate the event folders of the split's directory
in sorted order, descend into each `tiles` subfolder, and collect one
`PathGroup` per vv file.  The `none` case of `metadata` is unreachable
from `initDataset`, which validates the split first. -/
def loadFiles (fs : FS) (root split : String) : List PathGroup :=
  match metadata split with
  | none => []
  | some m =>
    let folders := pySorted (fs.listDir (joinPath root m.directory))
    let folders2 := folders.map (fun folder => joinPath folder "tiles")
    folders2.flatMap (loadFolder fs split)

/-- Errors `__getitem__` can raise. -/
inductive GetError
  | indexError
  | keyError
  | decodeFailure
deriving DecidableEq

/-- The image decoding primitive (`PIL.Image.open` plus `convert`):
`rgb` decodes a path in `RGB` mode to rows of colour triples, `gray`
decodes in `L` mode to rows of integer pixel values.  `none` models a
decode failure (missing or corrupt file). -/
structure Decoder where
  rgb : String → Option (List (List (Nat × Nat × Nat)))
  gray : String → Option (List (List Int))

/-- `tensor.permute((2, 0, 1))` applied to an H x W x 3 array: the
channel-first representation, a list of exactly three channel planes. -/
def permuteCHW (a : List (List (Nat × Nat × Nat))) : List (List (List Nat)) :=
  [a.map (fun row => row.map (fun p => p.1)),
   a.map (fun row => row.map (fun p => p.2.1)),
   a.map (fun row => row.map (fun p => p.2.2))]

/-- `torch.clamp(v, min=0, max=1)` on one integer pixel value. -/
def clampPixel (v : Int) : Int := min (max v 0) 1

/-- `_load_image`: decode a path in RGB mode and permute to
channel-first layout. -/
def loadImage (dec : Decoder) (path : String) :
    Except GetError (List (List (List Nat))) :=
  match dec.rgb path with
  | none => .error .decodeFailure
  | some a => .ok (permuteCHW a)

/-- `_load_target`: decode a path in grayscale mode, clamp every pixel
to [0, 1] and keep it as an integer class label. -/
def loadTarget (dec : Decoder) (path : String) :
    Except GetError (List (List Int)) :=
  match dec.gray path with
  | none => .error .decodeFailure
  | some a => .ok (a.map (fun row => row.map clampPixel))

/-- The sample dictionary returned by `__getitem__`: `image` is a list
of channel planes, `mask` a list of mask planes. -/
structure Sample where
  image : List (List (List Nat))
  mask : List (List (List Int))
deriving DecidableEq

/-- Errors `__init__` can raise. -/
inductive InitError
  | assertionError
  | datasetNotFound
deriving DecidableEq

/-- The constructed dataset object: its configuration fields and the
file list built once at construction. -/
structure Dataset where
  root : String
  split : String
  transforms : Option (Sample → Sample)
  checksum : Bool
  files : List PathGroup

/-- `_check_integrity`: the split's directory exists under root. -/
def checkIntegrity (fs : FS) (root directory : String) : Bool :=
  fs.pathExists (joinPath root directory)

/-- `_download`: a no-op when the data is already present, otherwise the
external fetch-and-extract step, modelled by the `fetch` argument. -/
def downloadStep (fetch : FS → FS) (fs : FS) (root directory : String) : FS :=
  if checkIntegrity fs root directory then fs else fetch fs

/-- `__init__`: assert the split is recognised, optionally download,
check integrity, then build the file list. -/
def initDataset (fetch : FS → FS) (fs : FS) (root split : String)
    (transforms : Option (Sample → Sample)) (download checksum : Bool) :
    Except InitError Dataset :=
  match metadata split with
  | none => .error .assertionError
  | some m =>
    let fsd := if download then downloadStep fetch fs root m.directory else fs
    if checkIntegrity fsd root m.directory then
      .ok ⟨root, split, transforms, checksum, loadFiles fsd root split⟩
    else
      .error .datasetNotFound

/-- `__len__`. -/
def datasetLen (ds : Dataset) : Nat := ds.files.length

/-- The sample-assembly part of `__getitem__` (everything after the
`self.files[index]` lookup and before the transform hook): load vv, vh
and the water mask, then the flood mask for non-test splits, and build
the `image` and `mask` entries. -/
def assemble (dec : Decoder) (split : String) (files : PathGroup) :
    Except GetError Sample :=
  match loadImage dec files.vv with
  | .error e => .error e
  | .ok vv =>
    match loadImage dec files.vh with
    | .error e => .error e
    | .ok vh =>
      match loadTarget dec files.waterMask with
      | .error e => .error e
      | .ok waterMask =>
        if split ≠ "test" then
          match files.floodMask with
          | none => .error .keyError
          | some p =>
            match loadTarget dec p with
            | .error e => .error e
            | .ok floodMask => .ok ⟨vv ++ vh, [waterMask, floodMask]⟩
        else
          .ok ⟨vv ++ vh, [waterMask]⟩

/-- `__getitem__`: index into the file list (Python semantics), assemble
the sample, and apply the transform hook when one is configured. -/
def getItem (dec : Decoder) (ds : Dataset) (index : Int) :
    Except GetError Sample :=
  match pyIndex ds.files index with
  | none => .error .indexError
  | some files =>
    match assemble dec ds.split files with
    | .error e => .error e
    | .ok sample =>
      match ds.transforms with
      | none => .ok sample
      | some t => .ok (t sample)

/-- Modelled from the spec: the claimed "literal first-occurrence-of-substring
replacement semantics" — substitute only the first occurrence of `pat` and
leave the rest of the string untouched.  This definition follows the spec's
words, for comparison with the source's `pyReplace`. -/
def replaceFirstAux (pat repl : List Char) : List Char → List Char
  | [] => []
  | c :: cs =>
    if pat ≠ [] ∧ pat.isPrefixOf (c :: cs) then
      repl ++ List.drop pat.length (c :: cs)
    else
      c :: replaceFirstAux pat repl cs

/-- Modelled from the spec: first-occurrence-only string replacement. -/
def replaceFirst (s pat repl : String) : String :=
  ⟨replaceFirstAux pat.data repl.data s.data⟩

/-! ### Concrete fixtures used by witnesses and counterexamples -/

/-- A small concrete directory tree: one event folder under `data/train`
holding two vv tiles, listed by the OS in non-lexicographic order. -/
def fs1 : FS :=
  { listDir := fun p => if p = "data/train" then ["data/train/e1"] else [],
    listPng := fun p =>
      if p = "data/train/e1/tiles/vv" then
        ["data/train/e1/tiles/vv/1_vv.png", "data/train/e1/tiles/vv/0_vv.png"]
      else [],
    pathExists := fun _ => true }

/-- The same directory tree as `fs1`, with the OS returning the vv tiles
in the opposite order. -/
def fs2 : FS :=
  { listDir := fun p => if p = "data/train" then ["data/train/e1"] else [],
    listPng := fun p =>
      if p = "data/train/e1/tiles/vv" then
        ["data/train/e1/tiles/vv/0_vv.png", "data/train/e1/tiles/vv/1_vv.png"]
      else [],
    pathExists := fun _ => true }

/-- A decoder that decodes every path to a 1 x 1 image. -/
def dec1 : Decoder :=
  { rgb := fun _ => some [[(1, 2, 3)]],
    gray := fun _ => some [[0]] }

/-- The dataset constructed over `fs1` with the train split and no
transform hook. -/
def dsTrain : Dataset := ⟨"data", "train", none, false, loadFiles fs1 "data" "train"⟩

/-- The first path group discovered in `fs1` for the train split. -/
def g0 : PathGroup :=
  ⟨"data/train/e1/tiles/vv/0_vv.png", "data/train/e1/tiles/vh/0_vh.png",
   "data/train/e1/tiles/water_body_label/0.png",
   some "data/train/e1/tiles/flood_label/0.png"⟩

/-- A transform hook that discards the assembled sample. -/
def badT : Sample → Sample := fun _ => ⟨[], []⟩

/-- The dataset constructed over `fs1` with the hook `badT` configured. -/
def dsBad : Dataset := ⟨"data", "train", some badT, false, loadFiles fs1 "data" "train"⟩

/-! ### Properties of the lexicographic order and of `pySorted` -/

theorem lexLe_total (a : List Char) : ∀ b, lexLe a b = true ∨ lexLe b a = true := by
  induction a with
  | nil => intro b; left; cases b <;> rfl
  | cons x xs ih =>
    intro b
    cases b with
    | nil => right; rfl
    | cons y ys =>
      rcases lt_trichotomy x y with h | h | h
      · left; simp [lexLe, h]
      · subst h
        rcases ih ys with h2 | h2
        · left; simp [lexLe, h2]
        · right; simp [lexLe, h2]
      · right; simp [lexLe, h]

theorem lexLe_trans (a : List Char) :
    ∀ b c, lexLe a b = true → lexLe b c = true → lexLe a c = true := by
  induction a with
  | nil => intro b c _ _; rfl
  | cons x xs ih =>
    intro b c h1 h2
    cases b with
    | nil => simp [lexLe] at h1
    | cons y ys =>
      cases c with
      | nil => simp [lexLe] at h2
      | cons z zs =>
        simp only [lexLe] at h1 h2 ⊢
        by_cases hxy : x < y
        · by_cases hyz : y < z
          · simp [lt_trans hxy hyz]
          · by_cases hzy : z < y
            · rw [if_neg hyz, if_pos hzy] at h2; cases h2
            · have hyz' : y = z := le_antisymm (le_of_not_lt hzy) (le_of_not_lt hyz)
              subst hyz'; simp [hxy]
        · by_cases hyx : y < x
          · rw [if_neg hxy, if_pos hyx] at h1; cases h1
          · have hxy' : x = y := le_antisymm (le_of_not_lt hyx) (le_of_not_lt hxy)
            subst hxy'
            rw [if_neg hxy, if_neg hxy] at h1
            by_cases hxz : x < z
            · simp [hxz]
            · by_cases hzx : z < x
              · rw [if_neg hxz, if_pos hzx] at h2; cases h2
              · rw [if_neg hxz, if_neg hzx] at h2 ⊢
                exact ih ys zs h1 h2

theorem lexLe_antisymm (a : List Char) :
    ∀ b, lexLe a b = true → lexLe b a = true → a = b := by
  induction a with
  | nil =>
    intro b h1 h2
    cases b with
    | nil => rfl
    | cons y ys => simp [lexLe] at h2
  | cons x xs ih =>
    intro b h1 h2
    cases b with
    | nil => simp [lexLe] at h1
    | cons y ys =>
      simp only [lexLe] at h1 h2
      by_cases hxy : x < y
      · rw [if_neg (asymm hxy), if_pos hxy] at h2; cases h2
      · by_cases hyx : y < x
        · rw [if_neg hxy, if_pos hyx] at h1; cases h1
        · have hxy' : x = y := le_antisymm (le_of_not_lt hyx) (le_of_not_lt hxy)
          subst hxy'
          rw [if_neg hxy, if_neg hxy] at h1
          rw [if_neg hxy, if_neg hxy] at h2
          rw [ih ys h1 h2]

instance : IsTotal String strLe := ⟨fun a b => lexLe_total a.data b.data⟩

instance : IsTrans String strLe :=
  ⟨fun a b c h1 h2 => lexLe_trans a.data b.data c.data h1 h2⟩

instance : IsAntisymm String strLe :=
  ⟨fun a b h1 h2 => String.ext (lexLe_antisymm a.data b.data h1 h2)⟩

theorem pySorted_perm (l : List String) : (pySorted l).Perm l :=
  List.perm_insertionSort _ _

theorem pySorted_sorted (l : List String) : List.Sorted strLe (pySorted l) :=
  List.sorted_insertionSort _ _

theorem pySorted_congr {l1 l2 : List String} (h : l1.Perm l2) :
    pySorted l1 = pySorted l2 :=
  List.eq_of_perm_of_sorted
    ((pySorted_perm l1).trans (h.trans (pySorted_perm l2).symm))
    (pySorted_sorted l1) (pySorted_sorted l2)

/-! ### Properties of `pyIndex` -/

theorem pyIndex_eq_none_iff {α : Type} (l : List α) (i : Int) :
    pyIndex l i = none ↔ (i < -(l.length : Int) ∨ (l.length : Int) ≤ i) := by
  by_cases hneg : i < 0
  · simp only [pyIndex, if_pos hneg]
    split
    · next h =>
      have hr : ¬ (i < -(l.length : Int) ∨ (l.length : Int) ≤ i) := by omega
      simp [hr]
    · next h =>
      have hr : i < -(l.length : Int) ∨ (l.length : Int) ≤ i := by omega
      simp [hr]
  · simp only [pyIndex, if_neg hneg]
    split
    · next h =>
      have hr : ¬ (i < -(l.length : Int) ∨ (l.length : Int) ≤ i) := by omega
      simp [hr]
    · next h =>
      have hr : i < -(l.length : Int) ∨ (l.length : Int) ≤ i := by omega
      simp [hr]

theorem pyIndex_neg {α : Type} (l : List α) (i : Int)
    (h1 : -(l.length : Int) ≤ i) (h2 : i < 0) :
    pyIndex l i = pyIndex l (i + l.length) := by
  have hx : ¬ ((i + (l.length : Int)) < 0) := by omega
  simp only [pyIndex, if_pos h2, if_neg hx]

theorem pyIndex_isSome {α : Type} (l : List α) (i : Int)
    (h1 : -(l.length : Int) ≤ i) (h2 : i < (l.length : Int)) :
    ∃ g, pyIndex l i = some g := by
  cases hP : pyIndex l i with
  | some g => exact ⟨g, rfl⟩
  | none => rcases (pyIndex_eq_none_iff l i).mp hP with h | h <;> omega

/-! ### Properties of the loaders and of `assemble` -/

theorem loadImage_error_eq {dec : Decoder} {p : String} {e : GetError}
    (h : loadImage dec p = .error e) : e = .decodeFailure := by
  unfold loadImage at h
  cases hd : dec.rgb p <;> simp only [hd] at h <;> simp_all

theorem loadTarget_error_eq {dec : Decoder} {p : String} {e : GetError}
    (h : loadTarget dec p = .error e) : e = .decodeFailure := by
  unfold loadTarget at h
  cases hd : dec.gray p <;> simp only [hd] at h <;> simp_all

theorem assemble_ne_indexError (dec : Decoder) (split : String) (g : PathGroup) :
    assemble dec split g ≠ .error .indexError := by
  intro h
  unfold assemble at h
  cases hvv : loadImage dec g.vv with
  | error e =>
    simp only [hvv] at h
    have := loadImage_error_eq hvv
    simp_all
  | ok vv =>
    simp only [hvv] at h
    cases hvh : loadImage dec g.vh with
    | error e =>
      simp only [hvh] at h
      have := loadImage_error_eq hvh
      simp_all
    | ok vh =>
      simp only [hvh] at h
      cases hw : loadTarget dec g.waterMask with
      | error e =>
        simp only [hw] at h
        have := loadTarget_error_eq hw
        simp_all
      | ok w =>
        simp only [hw] at h
        by_cases hs : split = "test"
        · rw [if_neg (by simp [hs])] at h
          simp at h
        · rw [if_pos hs] at h
          cases hf : g.floodMask with
          | none => simp only [hf] at h; simp at h
          | some p =>
            simp only [hf] at h
            cases hfl : loadTarget dec p with
            | error e =>
              simp only [hfl] at h
              have := loadTarget_error_eq hfl
              simp_all
            | ok f => simp only [hfl] at h; simp at h

theorem getItem_ne_indexError_of_some {dec : Decoder} {ds : Dataset} {i : Int}
    {g : PathGroup} (h : pyIndex ds.files i = some g) :
    getItem dec ds i ≠ .error .indexError := by
  intro hc
  unfold getItem at hc
  rw [h] at hc
  cases hA : assemble dec ds.split g with
  | error e =>
    simp only [hA] at hc
    have : e = GetError.indexError := by simp_all
    subst this
    exact assemble_ne_indexError dec ds.split g hA
  | ok s =>
    simp only [hA] at hc
    cases ht : ds.transforms <;> simp [ht] at hc

theorem zip_self_map {α β : Type} (l : List α) (k : α → β) :
    l.zip (l.map k) = l.map (fun v => (v, k v)) := by
  calc l.zip (l.map k) = (l.map id).zip (l.map k) := by rw [List.map_id]
    _ = l.map (fun v => (id v, k v)) := List.zip_map' id k l
    _ = l.map (fun v => (v, k v)) := rfl

theorem mem_loadFolder {fs : FS} {split folder : String} {g : PathGroup}
    (hg : g ∈ loadFolder fs split folder) :
    g.vh = pyReplace g.vv "vv" "vh" ∧
    g.waterMask = pyReplace (pyReplace g.vv "_vv.png" ".png") "vv" "water_body_label" ∧
    (split ≠ "test" → g.floodMask =
      some (pyReplace (pyReplace g.vv "_vv.png" ".png") "vv" "flood_label")) ∧
    (split = "test" → g.floodMask = none) := by
  unfold loadFolder at hg
  by_cases hs : split = "test"
  · rw [if_neg (by simp [hs])] at hg
    rw [List.zip_map', zip_self_map, List.map_map] at hg
    obtain ⟨v, _, hgv⟩ := List.mem_map.mp hg
    subst hgv
    exact ⟨rfl, rfl, fun h => absurd hs h, fun _ => rfl⟩
  · rw [if_pos hs] at hg
    dsimp only at hg
    rw [List.zip_map', List.zip_map', zip_self_map, List.map_map] at hg
    obtain ⟨v, _, hgv⟩ := List.mem_map.mp hg
    subst hgv
    exact ⟨rfl, rfl, fun _ => rfl, fun h => absurd h hs⟩

theorem loadFolder_length (fs : FS) (split folder : String) :
    (loadFolder fs split folder).length = (fs.listPng (joinPath folder "vv")).length := by
  unfold loadFolder
  by_cases hs : split = "test"
  · rw [if_neg (by simp [hs])]
    simp [List.length_zip, (pySorted_perm _).length_eq]
  · rw [if_pos hs]
    simp [List.length_zip, (pySorted_perm _).length_eq]

/-! ### Claim theorems -/

/-- C4: mask decoding clamps every decoded grayscale pixel value to [0, 1]
and keeps it as an integer class label: the result of `_load_target` maps
`clampPixel` over the decoded array, a value `v ≤ 0` becomes 0, a value
`v ≥ 1` becomes 1, and the pixel values 0, 128, 255 become the class
labels 0, 1, 1. -/
theorem loadTarget_clamps (dec : Decoder) (path : String) (a : List (List Int))
    (ha : dec.gray path = some a) :
    loadTarget dec path = .ok (a.map (fun row => row.map clampPixel)) ∧
    (∀ v : Int, v ≤ 0 → clampPixel v = 0) ∧
    (∀ v : Int, 1 ≤ v → clampPixel v = 1) ∧
    clampPixel 0 = 0 ∧ clampPixel 128 = 1 ∧ clampPixel 255 = 1 := by
  refine ⟨?_, ?_, ?_, ?_, ?_, ?_⟩
  · simp [loadTarget, ha]
  · intro v hv; simp only [clampPixel]; omega
  · intro v hv; simp only [clampPixel]; omega
  · simp only [clampPixel]; omega
  · simp only [clampPixel]; omega
  · simp only [clampPixel]; omega

/-- Witness for C4, at the constant decoder `dec1`. -/
theorem loadTarget_clamps_witness :
    loadTarget dec1 "data/train/e1/tiles/water_body_label/0.png" =
      .ok ([[(0 : Int)]].map (fun row => row.map clampPixel)) :=
  (loadTarget_clamps dec1 "data/train/e1/tiles/water_body_label/0.png" [[0]] rfl).1

/-- C5: a configured transform hook is applied exactly once to the
assembled sample and its return value is returned unchanged
(`getItem` with hook `t` equals `Except.map t` of `getItem` without a
hook), and the identity hook yields exactly the no-hook result. -/
theorem getItem_transform_hook (dec : Decoder) (ds : Dataset)
    (t : Sample → Sample) (i : Int) :
    getItem dec { ds with transforms := some t } i =
      Except.map t (getItem dec { ds with transforms := none } i) ∧
    getItem dec { ds with transforms := some (fun s => s) } i =
      getItem dec { ds with transforms := none } i := by
  have key : ∀ u : Sample → Sample,
      getItem dec { ds with transforms := some u } i =
        Except.map u (getItem dec { ds with transforms := none } i) := by
    intro u
    simp only [getItem]
    cases hP : pyIndex ds.files i with
    | none => simp [Except.map]
    | some g =>
      simp only []
      cases hA : assemble dec ds.split g with
      | error e => simp [Except.map]
      | ok s => simp [Except.map]
  refine ⟨key t, ?_⟩
  rw [key (fun s => s)]
  cases hx : getItem dec { ds with transforms := none } i <;> simp [Except.map]

/-- C6: an unrecognised split fails the membership assertion at the very
start of construction, independently of the file system, the fetch step
and the download flag — no other construction step runs. -/
theorem initDataset_invalid_split (fetch : FS → FS) (fs : FS) (root split : String)
    (transforms : Option (Sample → Sample)) (download checksum : Bool)
    (hs : metadata split = none) :
    initDataset fetch fs root split transforms download checksum =
      .error .assertionError := by
  simp only [initDataset, hs]

/-- Witness for C6: `split = "bogus"` over the concrete tree `fs1`. -/
theorem initDataset_invalid_split_witness :
    initDataset (fun f => f) fs1 "data" "bogus" none true true =
      .error .assertionError :=
  initDataset_invalid_split (fun f => f) fs1 "data" "bogus" none true true rfl

/-- C7: for a recognised split, construction fails with the
dataset-not-found error exactly when the split's directory does not exist
under root after the optional download step; when it exists, construction
succeeds and stores the discovered file list. -/
theorem initDataset_integrity (fetch : FS → FS) (fs : FS) (root split : String)
    (transforms : Option (Sample → Sample)) (download checksum : Bool)
    (m : SplitMeta) (hm : metadata split = some m) :
    (initDataset fetch fs root split transforms download checksum =
        .error .datasetNotFound ↔
      checkIntegrity (if download then downloadStep fetch fs root m.directory else fs)
        root m.directory = false) ∧
    (checkIntegrity (if download then downloadStep fetch fs root m.directory else fs)
        root m.directory = true →
      initDataset fetch fs root split transforms download checksum =
        .ok ⟨root, split, transforms, checksum,
          loadFiles (if download then downloadStep fetch fs root m.directory else fs)
            root split⟩) := by
  simp only [initDataset, hm]
  cases h : checkIntegrity (if download then downloadStep fetch fs root m.directory else fs)
      root m.directory
  · simp [h]
  · simp [h]

/-- Witness for C7: construction over `fs1` (whose directories exist)
succeeds with the discovered file list. -/
theorem initDataset_integrity_witness :
    initDataset (fun f => f) fs1 "data" "train" none false false =
      .ok ⟨"data", "train", none, false, loadFiles fs1 "data" "train"⟩ :=
  (initDataset_integrity (fun f => f) fs1 "data" "train" none false false
    trainMeta rfl).2 rfl

/-- C8 (amended): `getItem` fails with the index error exactly when the
index lies outside `[-length, length)`; every index inside that interval
— including the negative ones — passes the index lookup. -/
theorem getItem_indexError_iff (dec : Decoder) (ds : Dataset) (i : Int) :
    getItem dec ds i = .error .indexError ↔
      (i < -(datasetLen ds : Int) ∨ (datasetLen ds : Int) ≤ i) := by
  cases hP : pyIndex ds.files i with
  | none =>
    have hR := (pyIndex_eq_none_iff ds.files i).mp hP
    constructor
    · intro _; simpa [datasetLen] using hR
    · intro _; unfold getItem; rw [hP]
  | some g =>
    constructor
    · intro h; exact absurd h (getItem_ne_indexError_of_some hP)
    · intro h
      exfalso
      have hnone := (pyIndex_eq_none_iff ds.files i).mpr (by simpa [datasetLen] using h)
      rw [hP] at hnone
      cases hnone

/-- C8 counterexample: the index -1 lies outside `[0, length())`, yet
`getItem` does not raise the index error there (Python negative-index
semantics), refuting the claimed iff with the interval `[0, length())`. -/
theorem getItem_neg_one_counterexample :
    getItem dec1 dsTrain (-1) ≠ Except.error GetError.indexError ∧
      ((-1 : Int) < 0 ∨ (datasetLen dsTrain : Int) ≤ -1) := by
  constructor
  · have h : getItem dec1 dsTrain (-1) =
        .ok ⟨[[[1]], [[2]], [[3]], [[1]], [[2]], [[3]]], [[[0]], [[0]]]⟩ := rfl
    rw [h]
    simp
  · left
    decide

/-- C10: for a negative index `i` with `-length ≤ i ≤ -1`, `getItem`
does not raise an index error and returns exactly the result for the
position `length + i`. -/
theorem getItem_negative_index (dec : Decoder) (ds : Dataset) (i : Int)
    (h1 : -(datasetLen ds : Int) ≤ i) (h2 : i < 0) :
    getItem dec ds i = getItem dec ds (i + datasetLen ds) ∧
      getItem dec ds i ≠ .error .indexError := by
  have h1' : -(ds.files.length : Int) ≤ i := by simpa [datasetLen] using h1
  have heq : pyIndex ds.files i = pyIndex ds.files (i + ds.files.length) :=
    pyIndex_neg ds.files i h1' h2
  constructor
  · simp only [getItem, datasetLen]
    rw [heq]
  · obtain ⟨g, hg⟩ := pyIndex_isSome ds.files i h1' (by omega)
    exact getItem_ne_indexError_of_some hg

/-- Witness for C10, at index -1 of the two-sample dataset `dsTrain`. -/
theorem getItem_negative_index_witness :
    getItem dec1 dsTrain (-1) = getItem dec1 dsTrain (-1 + datasetLen dsTrain) ∧
      getItem dec1 dsTrain (-1) ≠ Except.error GetError.indexError :=
  getItem_negative_index dec1 dsTrain (-1) (by decide) (by decide)

/-- C1 (amended): for a dataset with no transform hook configured, when
the index lookup and the decodes succeed, `getItem` returns the sample
whose image is the 3-channel vv decode concatenated with the 3-channel
vh decode (6 channels), and whose mask has 1 plane (the water mask) for
the test split and 2 planes (water first, then flood) otherwise. -/
theorem getItem_shape (dec : Decoder) (ds : Dataset) (i : Int) (g : PathGroup)
    (a b : List (List (Nat × Nat × Nat))) (w f : List (List Int)) (p : String)
    (ht : ds.transforms = none)
    (hg : pyIndex ds.files i = some g)
    (ha : dec.rgb g.vv = some a) (hb : dec.rgb g.vh = some b)
    (hw : dec.gray g.waterMask = some w) :
    (ds.split = "test" →
      getItem dec ds i =
        .ok ⟨permuteCHW a ++ permuteCHW b, [w.map (fun row => row.map clampPixel)]⟩ ∧
      (permuteCHW a ++ permuteCHW b).length = 6 ∧
      [w.map (fun row => row.map clampPixel)].length = 1) ∧
    (ds.split ≠ "test" → g.floodMask = some p → dec.gray p = some f →
      getItem dec ds i =
        .ok ⟨permuteCHW a ++ permuteCHW b,
          [w.map (fun row => row.map clampPixel),
           f.map (fun row => row.map clampPixel)]⟩ ∧
      (permuteCHW a ++ permuteCHW b).length = 6 ∧
      [w.map (fun row => row.map clampPixel),
       f.map (fun row => row.map clampPixel)].length = 2) := by
  have himg : (permuteCHW a ++ permuteCHW b).length = 6 := by simp [permuteCHW]
  constructor
  · intro hs
    refine ⟨?_, himg, rfl⟩
    have hA : assemble dec ds.split g =
        .ok ⟨permuteCHW a ++ permuteCHW b,
          [w.map (fun row => row.map clampPixel)]⟩ := by
      simp only [assemble, loadImage, loadTarget, ha, hb, hw, hs]
      simp
    simp only [getItem, hg, hA, ht]
  · intro hs hf hfl
    refine ⟨?_, himg, rfl⟩
    have hA : assemble dec ds.split g =
        .ok ⟨permuteCHW a ++ permuteCHW b,
          [w.map (fun row => row.map clampPixel),
           f.map (fun row => row.map clampPixel)]⟩ := by
      simp only [assemble, loadImage, loadTarget, ha, hb, hw, hf, hfl]
      rw [if_pos hs]
    simp only [getItem, hg, hA, ht]

/-- Witness for C1, at index 0 of the concrete train dataset `dsTrain`. -/
theorem getItem_shape_witness :
    getItem dec1 dsTrain 0 =
      .ok ⟨permuteCHW [[(1, 2, 3)]] ++ permuteCHW [[(1, 2, 3)]],
        [[[(0 : Int)]].map (fun row => row.map clampPixel),
         [[(0 : Int)]].map (fun row => row.map clampPixel)]⟩ ∧
    (permuteCHW [[(1, 2, 3)]] ++ permuteCHW [[(1, 2, 3)]]).length = 6 ∧
    [[[(0 : Int)]].map (fun row => row.map clampPixel),
     [[(0 : Int)]].map (fun row => row.map clampPixel)].length = 2 :=
  (getItem_shape dec1 dsTrain 0 g0 [[(1, 2, 3)]] [[(1, 2, 3)]] [[0]] [[0]]
    "data/train/e1/tiles/flood_label/0.png" rfl rfl rfl rfl rfl).2
    (by decide) rfl rfl

/-- C1 counterexample: a constructed dataset whose configured transform
hook discards the assembled sample; `getItem` returns the hook's value,
whose image has 0 channels, not 6 — so the claim fails for datasets with
an arbitrary transform hook. -/
theorem getItem_shape_counterexample :
    initDataset (fun f => f) fs1 "data" "train" (some badT) false false =
      .ok dsBad ∧
    getItem dec1 dsBad 0 = .ok ⟨[], []⟩ ∧
    (Sample.mk [] []).image.length ≠ 6 :=
  ⟨rfl, rfl, by decide⟩

/-- C2 (amended): companion paths are derived from each discovered vv
path by Python replace-all semantics — every non-overlapping occurrence
of the substring is substituted, left to right, not only the first: the
vh path substitutes every "vv", and the mask paths substitute every
"_vv.png" suffix and then every remaining "vv". -/
theorem loadFiles_replace_semantics (fs : FS) (root split : String) (g : PathGroup)
    (hg : g ∈ loadFiles fs root split) :
    g.vh = pyReplace g.vv "vv" "vh" ∧
    g.waterMask = pyReplace (pyReplace g.vv "_vv.png" ".png") "vv" "water_body_label" ∧
    (split ≠ "test" → g.floodMask =
      some (pyReplace (pyReplace g.vv "_vv.png" ".png") "vv" "flood_label")) ∧
    (split = "test" → g.floodMask = none) := by
  unfold loadFiles at hg
  cases hm : metadata split with
  | none => simp only [hm] at hg; cases hg
  | some m =>
    simp only [hm] at hg
    obtain ⟨folder, _, hgf⟩ := List.mem_flatMap.mp hg
    exact mem_loadFolder hgf

/-- Witness for C2, at the concrete group `g0` discovered in `fs1`. -/
theorem loadFiles_replace_semantics_witness :
    g0.vh = pyReplace g0.vv "vv" "vh" ∧
    g0.waterMask = pyReplace (pyReplace g0.vv "_vv.png" ".png") "vv" "water_body_label" ∧
    (("train" : String) ≠ "test" → g0.floodMask =
      some (pyReplace (pyReplace g0.vv "_vv.png" ".png") "vv" "flood_label")) ∧
    (("train" : String) = "test" → g0.floodMask = none) :=
  loadFiles_replace_semantics fs1 "data" "train" g0 (by decide)

/-- C2 counterexample: for the discovered vv path
`data/train/e1/tiles/vv/0_vv.png`, which contains the substring "vv"
twice beyond the folder name, the code's derived vh path substitutes
both occurrences, while the claimed first-occurrence-only substitution
(`replaceFirst`, modelled from the spec) substitutes just the directory
component — the two disagree. -/
theorem loadFiles_replace_first_counterexample :
    g0 ∈ loadFiles fs1 "data" "train" ∧
    replaceFirst g0.vv "vv" "vh" = "data/train/e1/tiles/vh/0_vv.png" ∧
    g0.vh = "data/train/e1/tiles/vh/0_vh.png" ∧
    g0.vh ≠ replaceFirst g0.vv "vv" "vh" := by decide

/-- C3: file discovery is deterministic and ordered — over two file
systems that present the same directory tree (listings equal up to
permutation, as the OS may reorder them), `_load_files` returns the same
sequence in the same order, with the event-folder listing and each vv
listing in lexicographic order. -/
theorem loadFiles_deterministic (fsA fsB : FS) (root split : String)
    (m : SplitMeta) (hm : metadata split = some m)
    (hdir : ∀ p, (fsA.listDir p).Perm (fsB.listDir p))
    (hpng : ∀ p, (fsA.listPng p).Perm (fsB.listPng p)) :
    loadFiles fsA root split = loadFiles fsB root split ∧
    List.Sorted strLe (pySorted (fsA.listDir (joinPath root m.directory))) ∧
    (∀ folder, List.Sorted strLe (pySorted (fsA.listPng (joinPath folder "vv")))) := by
  refine ⟨?_, pySorted_sorted _, fun folder => pySorted_sorted _⟩
  have hfold : loadFolder fsA split = loadFolder fsB split := by
    funext folder
    unfold loadFolder
    rw [pySorted_congr (hpng (joinPath folder "vv"))]
  simp only [loadFiles, hm]
  rw [pySorted_congr (hdir (joinPath root m.directory)), hfold]

/-- Witness for C3: `fs1` and `fs2` list the same tiles in opposite
order, and discovery returns identical sequences over both. -/
theorem loadFiles_deterministic_witness :
    loadFiles fs1 "data" "train" = loadFiles fs2 "data" "train" :=
  (loadFiles_deterministic fs1 fs2 "data" "train" trainMeta rfl
    (fun p => List.Perm.refl _)
    (fun p => by
      by_cases h : p = "data/train/e1/tiles/vv"
      · subst h; decide
      · simp only [fs1, fs2]
        rw [if_neg h, if_neg h])).1

/-- C9: discovery never consults file existence — `_load_files` is
unchanged under an arbitrary replacement of the existence test, and
appends exactly one path group per discovered vv file (one per entry of
each folder's vv listing); a companion file that fails to decode (here:
a missing vh) surfaces only later, as a decode failure of `getItem`. -/
theorem loadFiles_no_companion_check (root split : String) (m : SplitMeta)
    (hm : metadata split = some m) :
    (∀ (fs : FS) (e : String → Bool),
      loadFiles ⟨fs.listDir, fs.listPng, e⟩ root split = loadFiles fs root split) ∧
    (∀ fs : FS, (loadFiles fs root split).length =
      ((pySorted (fs.listDir (joinPath root m.directory))).map
        (fun folder =>
          (fs.listPng (joinPath (joinPath folder "tiles") "vv")).length)).sum) ∧
    (∀ (dec : Decoder) (ds : Dataset) (i : Int) (g : PathGroup)
        (a : List (List (Nat × Nat × Nat))),
      pyIndex ds.files i = some g → dec.rgb g.vv = some a → dec.rgb g.vh = none →
      getItem dec ds i = .error .decodeFailure) := by
  refine ⟨fun fs e => rfl, ?_, ?_⟩
  · intro fs
    simp only [loadFiles, hm]
    rw [List.length_flatMap, List.map_map]
    congr 1
    have : (List.length ∘ loadFolder fs split) ∘ (fun folder => joinPath folder "tiles") =
        fun folder => (fs.listPng (joinPath (joinPath folder "tiles") "vv")).length := by
      funext folder
      exact loadFolder_length fs split (joinPath folder "tiles")
    rw [this]
  · intro dec ds i g a hg ha hb
    have hA : assemble dec ds.split g = .error .decodeFailure := by
      simp only [assemble, loadImage, ha, hb]
    simp only [getItem, hg, hA]

/-- Witness for C9: the length identity at the concrete tree `fs1`. -/
theorem loadFiles_no_companion_check_witness :
    (loadFiles fs1 "data" "train").length =
      ((pySorted (fs1.listDir (joinPath "data" trainMeta.directory))).map
        (fun folder =>
          (fs1.listPng (joinPath (joinPath folder "tiles") "vv")).length)).sum :=
  (loadFiles_no_companion_check "data" "train" trainMeta rfl).2.1 fs1

end ETCI2021
